import Mathlib

/-!
Verification development for the salon-booking appointment engine
(FastAPI routers `app/routers/appointments.py`, models `app/models/*.py`,
schemas `app/schemas/appointment.py`).

Modelling conventions:
* A Python `datetime` is modelled as an `Int` counting minutes since the
  epoch (all times in the engine are whole minutes: working hours are
  "HH:MM" strings, durations are integer minutes, the slot step is 30
  minutes).  Day boundaries use Euclidean division so that
  `dayStartOf t = 1440 * (t.ediv 1440)` is the midnight of `t`'s day, and
  day 0 (1970-01-01) is a Thursday, matching `strftime("%A")`.
* Currency (`Float` columns `price`, `home_service_fee`, ...) is modelled
  as exact rationals; the engine only ever adds these values.
* Working-hours JSON `{"monday": [{"start": "09:00", "end": "13:00"}]}`
  is modelled as an association list from weekday to a list of already
  parsed `WorkBlock` values (the source parses the "HH:MM" strings with
  `split(":")` and `int`).  A `None` column is `none`; Python dict
  truthiness (`if stylist.working_hours:`) is `some wh` with `wh ≠ []`.
* The database session is modelled as an explicit `DB` value; a query
  `.first()` is a `List.find?` over the corresponding table.
-/

/-- Enum `AppointmentStatus` of `app/models/appointment.py`. -/
inductive AppointmentStatus where
  | PENDING
  | CONFIRMED
  | COMPLETED
  | CANCELLED
  | NO_SHOW
deriving DecidableEq, Repr

/-- Enum `AppointmentType` of `app/models/appointment.py`. -/
inductive AppointmentType where
  | IN_SALON
  | AT_HOME
deriving DecidableEq, Repr

/-- Enum `UserRole` of `app/models/user.py`. -/
inductive UserRole where
  | CLIENT
  | SALON_OWNER
  | STYLIST
  | ADMIN
deriving DecidableEq, Repr

/-- An `HTTPException` raised by the router, by status code and detail. -/
inductive HTTPError where
  | notFound (detail : String)
  | badRequest (detail : String)
  | forbidden (detail : String)
deriving DecidableEq, Repr

/-- The seven weekday keys used in the `working_hours` JSON. -/
inductive Weekday where
  | monday
  | tuesday
  | wednesday
  | thursday
  | friday
  | saturday
  | sunday
deriving DecidableEq, Repr

/-- Lower-case day name, as produced by `strftime("%A").lower()`. -/
def dayName : Weekday → String
  | .monday => "monday"
  | .tuesday => "tuesday"
  | .wednesday => "wednesday"
  | .thursday => "thursday"
  | .friday => "friday"
  | .saturday => "saturday"
  | .sunday => "sunday"

/-- Midnight of the day containing minute `t` (the effect of
`dt.replace(hour=0, minute=0, second=0, microsecond=0)`). -/
def dayStartOf (t : Int) : Int := 1440 * (Int.ediv t 1440)

/-- Weekday of day index `n`; day 0 (1970-01-01) is a Thursday. -/
def weekdayOfIdx : Nat → Weekday
  | 0 => .thursday
  | 1 => .friday
  | 2 => .saturday
  | 3 => .sunday
  | 4 => .monday
  | 5 => .tuesday
  | _ => .wednesday

/-- Weekday of the minute instant `t`, i.e. `t.strftime("%A").lower()`. -/
def weekdayOf (t : Int) : Weekday :=
  weekdayOfIdx ((Int.emod (Int.ediv t 1440) 7).toNat)

/-- One work block of the `working_hours` JSON, with the "HH:MM" strings
already parsed into (hour, minute) pairs as the source does with
`map(int, time_slot["start"].split(":"))`. -/
structure WorkBlock where
  start_hour : Int
  start_minute : Int
  end_hour : Int
  end_minute : Int
deriving DecidableEq, Repr

/-- Start of `b` anchored on the day of instant `t`:
`t.replace(hour=start_hour, minute=start_minute, second=0, microsecond=0)`. -/
def workStart (t : Int) (b : WorkBlock) : Int :=
  dayStartOf t + 60 * b.start_hour + b.start_minute

/-- End of `b` anchored on the day of instant `t`:
`t.replace(hour=end_hour, minute=end_minute, second=0, microsecond=0)`. -/
def workEnd (t : Int) (b : WorkBlock) : Int :=
  dayStartOf t + 60 * b.end_hour + b.end_minute

/-- Row of the `service` table (`app/models/service.py`), restricted to the
columns the appointment router reads. -/
structure Service where
  id : Int
  duration_minutes : Int
  price : ℚ
  home_service_fee : Option ℚ
  is_active : Bool
deriving DecidableEq, Repr

/-- Row of the `stylist` table (`app/models/stylist.py`), restricted to the
columns the appointment router reads; `services` is the set of service ids
related through the `stylist_service` association table. -/
structure Stylist where
  id : Int
  full_name : String
  is_active : Bool
  services : List Int
  working_hours : Option (List (Weekday × List WorkBlock))
deriving DecidableEq, Repr

/-- Row of the `appointment` table (`app/models/appointment.py`). -/
structure Appointment where
  client_id : Int
  service_id : Int
  stylist_id : Int
  start_time : Int
  end_time : Int
  status : AppointmentStatus
  appointment_type : AppointmentType
  address : Option String
  notes : Option String
  price : ℚ
  original_price : ℚ
  additional_fees : ℚ
  discount_amount : ℚ
  is_paid : Bool
  cancellation_reason : Option String
deriving DecidableEq, Repr

/-- The database state visible to the appointment router. -/
structure DB where
  services : List Service
  stylists : List Stylist
  appointments : List Appointment
deriving DecidableEq, Repr

/-- Request body `AppointmentCreate` (`app/schemas/appointment.py`). -/
structure AppointmentCreate where
  service_id : Int
  stylist_id : Int
  start_time : Int
  appointment_type : AppointmentType
  address : Option String
  notes : Option String
deriving DecidableEq, Repr

/-- Request body `AppointmentStatusUpdate` (`app/schemas/appointment.py`),
after pydantic validation. -/
structure AppointmentStatusUpdate where
  status : AppointmentStatus
  cancellation_reason : Option String
deriving DecidableEq, Repr

/-- The three-condition time-conflict disjunction shared by the conflict
query of `create_appointment` (lines 92-105) and of `check_availability`
(lines 316-329): the existing appointment spans `[a_start, a_end)`, the
candidate spans `[s, e)`. -/
def tripleCond (a_start a_end s e : Int) : Prop :=
  (a_start ≤ s ∧ a_end > s) ∨ (a_start < e ∧ a_end ≥ e) ∨ (a_start ≥ s ∧ a_end ≤ e)

instance (a_start a_end s e : Int) : Decidable (tripleCond a_start a_end s e) := by
  unfold tripleCond; infer_instance

/-- Spec §4.1 `overlaps`: half-open interval overlap,
true iff `a.start < b.end AND b.start < a.end`. -/
def overlaps (a_start a_end b_start b_end : Int) : Prop :=
  a_start < b_end ∧ b_start < a_end

instance (a_start a_end b_start b_end : Int) :
    Decidable (overlaps a_start a_end b_start b_end) := by
  unfold overlaps; infer_instance

/-- Spec §4.1 `contains`: true iff
`outer.start <= inner.start AND inner.end <= outer.end`. -/
def contains (outer_start outer_end inner_start inner_end : Int) : Prop :=
  outer_start ≤ inner_start ∧ inner_end ≤ outer_end

instance (outer_start outer_end inner_start inner_end : Int) :
    Decidable (contains outer_start outer_end inner_start inner_end) := by
  unfold contains; infer_instance

/-- The conflict query of the router: first `Appointment` row for the given
stylist with status PENDING or CONFIRMED satisfying `tripleCond` against
the candidate interval `[s, e)`; modelled as the existence test. -/
def hasConflict (appts : List Appointment) (sid s e : Int) : Bool :=
  appts.any fun a =>
    decide (a.stylist_id = sid ∧
      (a.status = .PENDING ∨ a.status = .CONFIRMED) ∧
      tripleCond a.start_time a.end_time s e)

/-- Query of `create_appointment` lines 55-58: the first active service with
the requested id. -/
def find_service (db : DB) (service_id : Int) : Option Service :=
  db.services.find? fun s => decide (s.id = service_id) && s.is_active

/-- Query of `create_appointment` lines 67-70: the first active stylist with
the requested id. -/
def find_stylist (db : DB) (stylist_id : Int) : Option Stylist :=
  db.stylists.find? fun s => decide (s.id = stylist_id) && s.is_active

/-- Working-hours containment loop of `create_appointment` lines 120-134:
some block of the day contains `[start_time, end_time)` under the test
`start_time >= work_start and end_time <= work_end`. -/
def is_within_hours (start_time end_time : Int) (blocks : List WorkBlock) : Bool :=
  blocks.any fun b =>
    decide (start_time ≥ workStart start_time b ∧ end_time ≤ workEnd start_time b)

/-- The `Appointment(...)` constructor call of `create_appointment`
lines 156-171. -/
def mk_new_appointment (current_user_id : Int) (data : AppointmentCreate)
    (service : Service) (stylist : Stylist) : Appointment :=
  let end_time := data.start_time + service.duration_minutes
  let price := service.price
  let additional_fees : ℚ :=
    match service.home_service_fee with
    | some fee => if data.appointment_type = .AT_HOME ∧ fee ≠ 0 then fee else 0
    | none => 0
  { client_id := current_user_id
    service_id := service.id
    stylist_id := stylist.id
    start_time := data.start_time
    end_time := end_time
    appointment_type := data.appointment_type
    address := data.address
    notes := data.notes
    status := .PENDING
    price := price + additional_fees
    original_price := price
    additional_fees := additional_fees
    discount_amount := 0
    is_paid := false
    cancellation_reason := none }

/-- The working-hours validation of `create_appointment` lines 114-145.
Python truthiness of the JSON column: the check is skipped when
`working_hours` is NULL or the empty dict. -/
def working_hours_check (data : AppointmentCreate) (end_time : Int)
    (stylist : Stylist) : Except HTTPError Unit :=
  match stylist.working_hours with
  | none => .ok ()
  | some wh =>
    if wh = [] then .ok ()
    else
      let day_of_week := weekdayOf data.start_time
      match List.lookup day_of_week wh with
      | some blocks =>
        if is_within_hours data.start_time end_time blocks then .ok ()
        else .error (.badRequest ("Appointment time is outside of stylist's working hours"))
      | none => .error (.badRequest ("Stylist does not work on " ++ dayName day_of_week))

/-- The read-and-validate phase of `create_appointment`
(`app/routers/appointments.py` lines 54-171): everything before
`db.add(new_appointment); db.commit()`.  Returns the row that would be
inserted, or the `HTTPException` raised. -/
def create_appointment (db : DB) (current_user_id : Int)
    (data : AppointmentCreate) : Except HTTPError Appointment :=
  match find_service db data.service_id with
  | none => .error (.notFound ("Service not found or inactive"))
  | some service =>
    match find_stylist db data.stylist_id with
    | none => .error (.notFound ("Stylist not found or inactive"))
    | some stylist =>
      if service.id ∈ stylist.services then
        let end_time := data.start_time + service.duration_minutes
        if hasConflict db.appointments stylist.id data.start_time end_time then
          .error (.badRequest ("Time slot is not available"))
        else
          match working_hours_check data end_time stylist with
          | .error e => .error e
          | .ok () => .ok (mk_new_appointment current_user_id data service stylist)
      else .error (.badRequest ("Stylist does not offer this service"))

/-- The commit phase of `create_appointment` lines 174-175:
`db.add(new_appointment); db.commit()`. -/
def create_commit (db : DB) (a : Appointment) : DB :=
  { db with appointments := db.appointments ++ [a] }

/-- A whole `create_appointment` request executed without interleaving:
check phase followed, on success, by the commit phase. -/
def create_run (db : DB) (current_user_id : Int) (data : AppointmentCreate) :
    DB × Except HTTPError Appointment :=
  match create_appointment db current_user_id data with
  | .ok a => (create_commit db a, .ok a)
  | .error e => (db, .error e)

/-- Response item `TimeSlot` (`app/schemas/appointment.py`). -/
structure TimeSlot where
  start_time : Int
  end_time : Int
  stylist_id : Int
  stylist_name : String
deriving DecidableEq, Repr

/-- Fuel bound for the candidate-slot while loop of `check_availability`
lines 309-343: enough iterations for the 30-minute cursor starting at
`slot_start` to pass `work_end - dur`. -/
def iter_bound (work_end dur slot_start : Int) : Nat :=
  (work_end - dur - slot_start + 30).toNat / 30 + 1

/-- The candidate-slot while loop of `check_availability` lines 309-343,
written with explicit fuel: from cursor `slot_start`, while
`slot_start + dur <= work_end` emit `[slot_start, slot_start+dur)` when the
conflict query finds no PENDING/CONFIRMED appointment of the stylist under
`tripleCond`, then advance the cursor by 30 minutes.  Returns `none` only
when the fuel runs out with the loop guard still true. -/
def slot_loop_fuel (fuel : Nat) (appts : List Appointment) (stylist : Stylist)
    (dur work_end slot_start : Int) : Option (List TimeSlot) :=
  match fuel with
  | 0 => none
  | fuel + 1 =>
    if slot_start + dur ≤ work_end then
      let slot_end := slot_start + dur
      match slot_loop_fuel fuel appts stylist dur work_end (slot_start + 30) with
      | none => none
      | some rest =>
        if hasConflict appts stylist.id slot_start slot_end then some rest
        else some ({ start_time := slot_start, end_time := slot_end,
                     stylist_id := stylist.id,
                     stylist_name := stylist.full_name } :: rest)
    else some []

/-- The candidate-slot loop run with sufficient fuel (shown sufficient in
the termination theorem below). -/
def slot_loop (appts : List Appointment) (stylist : Stylist)
    (dur work_end slot_start : Int) : List TimeSlot :=
  (slot_loop_fuel (iter_bound work_end dur slot_start) appts stylist
    dur work_end slot_start).getD []

/-- Slot generation of `check_availability` for one work block
(lines 296-343): anchor the cursor at the block start on the requested
date and run the 30-minute loop up to the block end. -/
def block_slots (appts : List Appointment) (service : Service) (date : Int)
    (stylist : Stylist) (b : WorkBlock) : List TimeSlot :=
  slot_loop appts stylist service.duration_minutes (workEnd date b) (workStart date b)

/-- Slot generation of `check_availability` for one stylist
(lines 288-343): skip the stylist when `working_hours` is NULL or the
empty dict or has no entry for the weekday, else chain the blocks of the
day in stored order. -/
def stylist_slots (appts : List Appointment) (service : Service) (date : Int)
    (day_of_week : Weekday) (stylist : Stylist) : List TimeSlot :=
  match stylist.working_hours with
  | none => []
  | some wh =>
    if wh = [] then []
    else
      match List.lookup day_of_week wh with
      | none => []
      | some working_hours =>
        working_hours.flatMap fun b => block_slots appts service date stylist b

/-- Stylist query of `check_availability` lines 268-276: active stylists
offering the service, narrowed to `stylist_id` when that parameter is
truthy (Python `if stylist_id:` treats both `None` and `0` as absent). -/
def eligible_stylists (db : DB) (service_id : Int) (stylist_id : Option Int) :
    List Stylist :=
  db.stylists.filter fun st =>
    st.is_active && decide (service_id ∈ st.services) &&
      (match stylist_id with
       | some i => if i = 0 then true else decide (st.id = i)
       | none => true)

/-- `GET /appointments/availability` (`check_availability`,
`app/routers/appointments.py` lines 237-345). -/
def check_availability (db : DB) (service_id : Int) (date : Int)
    (stylist_id : Option Int) : Except HTTPError (List TimeSlot) :=
  match find_service db service_id with
  | none => .error (.notFound ("Service not found or inactive"))
  | some service =>
    let stylists := eligible_stylists db service_id stylist_id
    if stylists = [] then .ok []
    else
      let day_of_week := weekdayOf date
      .ok (stylists.flatMap fun st => stylist_slots db.appointments service date day_of_week st)

/-- Pydantic validation of `AppointmentStatusUpdate`
(`app/schemas/appointment.py` lines 44-53).  The raw request field
`cancellation_reason` is `none` when omitted and `some v` when supplied
(with `v = none` for JSON null).  The `validator` has no `always=True`,
so in pydantic v1 it only runs when the field is supplied; Python `not v`
is true for both null and the empty string. -/
def validate_status_update (status : AppointmentStatus)
    (cancellation_reason : Option (Option String)) :
    Except String AppointmentStatusUpdate :=
  match cancellation_reason with
  | none => .ok { status := status, cancellation_reason := none }
  | some v =>
    if status = .CANCELLED ∧ (v = none ∨ v = some ("")) then
      .error ("Cancellation reason is required when cancelling an appointment")
    else .ok { status := status, cancellation_reason := v }

/-- `PUT /appointments/{id}/status` (`update_appointment_status`,
`app/routers/appointments.py` lines 402-487), after the appointment row has
been fetched.  `salon_owner_ok` stands for the outcome of the two lookup
queries `salon.owner_id == current_user.id` of lines 467-470. -/
def update_appointment_status (role : UserRole) (current_user_id : Int)
    (salon_owner_ok : Bool) (appointment : Appointment)
    (status_data : AppointmentStatusUpdate) : Except HTTPError Appointment :=
  match role with
  | .CLIENT =>
    if appointment.client_id ≠ current_user_id then
      .error (.forbidden ("Not authorized to update this appointment"))
    else if status_data.status ≠ .CANCELLED then
      .error (.forbidden ("Clients can only cancel appointments"))
    else apply_status_update appointment status_data
  | .STYLIST =>
    if appointment.stylist_id ≠ current_user_id then
      .error (.forbidden ("Not authorized to update this appointment"))
    else if status_data.status ∉ [AppointmentStatus.CONFIRMED,
        AppointmentStatus.COMPLETED, AppointmentStatus.NO_SHOW] then
      .error (.forbidden ("Stylists can only confirm, complete, or mark appointments as no-show"))
    else apply_status_update appointment status_data
  | .SALON_OWNER =>
    if ¬ salon_owner_ok then
      .error (.forbidden ("Not authorized to update this appointment"))
    else apply_status_update appointment status_data
  | .ADMIN => apply_status_update appointment status_data
where
  /-- Lines 476-487: set the requested status unconditionally, and set the
  cancellation reason only when cancelling with a truthy reason. -/
  apply_status_update (appointment : Appointment)
      (status_data : AppointmentStatusUpdate) : Except HTTPError Appointment :=
    .ok { appointment with
          status := status_data.status
          cancellation_reason :=
            if status_data.status = .CANCELLED ∧
                status_data.cancellation_reason ≠ none ∧
                status_data.cancellation_reason ≠ some ("") then
              status_data.cancellation_reason
            else appointment.cancellation_reason }

/-- `PUT /appointments/{id}/payment` (`update_appointment_payment`,
lines 489-547), after the appointment row has been fetched and the role
checks passed: set `is_paid`, touch nothing else. -/
def update_appointment_payment (appointment : Appointment) (is_paid : Bool) :
    Appointment :=
  { appointment with is_paid := is_paid }

/-- Progress of one in-flight `create_appointment` request in the
concurrency model: not yet past the read phase, past the read phase and
holding the row it is about to insert, or finished with its response. -/
inductive OpState where
  | ready
  | checked (a : Appointment)
  | done (r : Except HTTPError Appointment)

/-- One scheduler step of an in-flight create request: a `ready` request
runs the whole read-and-validate phase against the current store; a
`checked` request commits its row.  The store is only written by the
commit. -/
def op_step (db : DB) (current_user_id : Int) (data : AppointmentCreate) :
    OpState → DB × OpState
  | .ready =>
    (match create_appointment db current_user_id data with
     | .ok a => (db, .checked a)
     | .error e => (db, .done (.error e)))
  | .checked a => (create_commit db a, .done (.ok a))
  | .done r => (db, .done r)

/-- System state: the shared store plus every request's progress. -/
structure SchedState where
  db : DB
  ops : List (Int × AppointmentCreate × OpState)

/-- Let request number `i` take its next step. -/
def sched_step (s : SchedState) (i : Nat) : SchedState :=
  match s.ops[i]? with
  | none => s
  | some (uid, data, st) =>
    let r := op_step s.db uid data st
    { db := r.1, ops := s.ops.set i (uid, data, r.2) }

/-- Run a whole interleaving, given as the list of request numbers in the
order in which they are scheduled. -/
def sched_run (s : SchedState) : List Nat → SchedState
  | [] => s
  | i :: rest => sched_run (sched_step s i) rest

/-- Whether a request finished with a 201 response. -/
def op_succeeded : OpState → Bool
  | .done (.ok _) => true
  | _ => false

/-- The work blocks the stylist has recorded for the given weekday
(empty when `working_hours` is NULL or has no entry for the day). -/
def blocks_of_day (st : Stylist) (day : Weekday) : List WorkBlock :=
  match st.working_hours with
  | none => []
  | some wh => (List.lookup day wh).getD []

/-! Concrete test fixtures.  Minute 5760 is midnight of day 4, a Monday
under the day-0-is-Thursday convention; 6360 is that Monday 10:00. -/

def svcC1 : Service := ⟨1, 60, 50, none, true⟩
def styC1 : Stylist := ⟨1, "Sam Doe", true, [1], none⟩
def dbC1 : DB := ⟨[svcC1], [styC1], []⟩
def dataC1 : AppointmentCreate := ⟨1, 1, 6360, .IN_SALON, none, none⟩

/-- Two identical create requests for stylist 1, both racing past the
conflict read before either commits: schedule check 0, check 1,
commit 0, commit 1. -/
def raceFinal : SchedState :=
  sched_run ⟨dbC1, [(10, dataC1, .ready), (20, dataC1, .ready)]⟩ [0, 1, 0, 1]

def apptC2 : Appointment :=
  { client_id := 100, service_id := 1, stylist_id := 1, start_time := 6360,
    end_time := 6420, status := .COMPLETED, appointment_type := .IN_SALON,
    address := none, notes := none, price := 50, original_price := 50,
    additional_fees := 0, discount_amount := 0, is_paid := true,
    cancellation_reason := none }

def apptC7 : Appointment :=
  { client_id := 100, service_id := 1, stylist_id := 1, start_time := 6360,
    end_time := 6420, status := .PENDING, appointment_type := .IN_SALON,
    address := none, notes := none, price := 50, original_price := 50,
    additional_fees := 0, discount_amount := 0, is_paid := false,
    cancellation_reason := none }

def apptC7b : Appointment :=
  { client_id := 100, service_id := 1, stylist_id := 3, start_time := 6360,
    end_time := 6420, status := .PENDING, appointment_type := .IN_SALON,
    address := none, notes := none, price := 50, original_price := 50,
    additional_fees := 0, discount_amount := 0, is_paid := false,
    cancellation_reason := some ("earlier note") }

def svcC4 : Service := ⟨1, 60, 50, none, true⟩
def styC4 : Stylist := ⟨1, "Riley Kim", true, [1], none⟩
def dbC4 : DB := ⟨[svcC4], [styC4], []⟩
def dataC4 : AppointmentCreate := ⟨1, 1, 6360, .IN_SALON, none, none⟩

def styC4b : Stylist := ⟨1, "Riley Kim", true, [1], some [(.monday, [⟨9, 0, 13, 0⟩])]⟩
def dbC4b : DB := ⟨[svcC4], [styC4b], []⟩
def dataC4b : AppointmentCreate := ⟨1, 1, 6600, .IN_SALON, none, none⟩

def svcC5 : Service := ⟨1, 60, 50, none, true⟩
def styC5 : Stylist := ⟨1, "Ana Lee", true, [1], some [(.monday, [⟨9, 0, 11, 30⟩])]⟩
def apptC5 : Appointment :=
  { client_id := 500, service_id := 1, stylist_id := 1, start_time := 6330,
    end_time := 6390, status := .PENDING, appointment_type := .IN_SALON,
    address := none, notes := none, price := 50, original_price := 50,
    additional_fees := 0, discount_amount := 0, is_paid := false,
    cancellation_reason := none }
def dbC5 : DB := ⟨[svcC5], [styC5], [apptC5]⟩

def svcC6 : Service := ⟨1, 60, 50, some 15, true⟩
def styC6 : Stylist := ⟨2, "Noor Haddad", true, [1], none⟩
def dbC6 : DB := ⟨[svcC6], [styC6], []⟩
def dataC6 : AppointmentCreate := ⟨1, 2, 6360, .AT_HOME, some ("12 Rose St"), none⟩
def apptC6 : Appointment := mk_new_appointment 9 dataC6 svcC6 styC6

def svcC8 : Service := ⟨1, 60, 50, none, true⟩
def styC8 : Stylist :=
  ⟨1, "Lee Park", true, [1], some [(.monday, [⟨14, 0, 18, 0⟩, ⟨9, 0, 13, 0⟩])]⟩
def dbC8 : DB := ⟨[svcC8], [styC8], []⟩
def avail8 : List TimeSlot := (check_availability dbC8 1 5760 none).toOption.getD []

def svcC8b : Service := ⟨1, 60, 50, none, true⟩
def styC8b : Stylist := ⟨2, "Mia Chen", true, [1], some [(.monday, [⟨9, 0, 10, 30⟩])]⟩
def dbC8b : DB := ⟨[svcC8b], [styC8b], []⟩

def svcC9 : Service := ⟨1, 0, 50, none, true⟩
def styC9 : Stylist := ⟨1, "Kai Sato", true, [1], none⟩
def dbC9 : DB := ⟨[svcC9], [styC9], []⟩
def dataC9 : AppointmentCreate := ⟨1, 1, 6360, .IN_SALON, none, none⟩
def apptC9 : Appointment := mk_new_appointment 7 dataC9 svcC9 styC9

def svcC9b : Service := ⟨1, 60, 50, none, true⟩
def styC9b : Stylist := ⟨1, "Kai Sato", true, [1], none⟩
def dbC9b : DB := ⟨[svcC9b], [styC9b], []⟩
def dataC9b : AppointmentCreate := ⟨1, 1, 6360, .IN_SALON, none, none⟩
def apptC9b : Appointment := mk_new_appointment 7 dataC9b svcC9b styC9b

/-! Helper lemmas shared by the claim theorems. -/

/-- Half-open overlap always triggers the three-condition disjunction
(no well-formedness needed in this direction). -/
theorem overlaps_imp_tripleCond {a_s a_e b_s b_e : Int}
    (h : overlaps a_s a_e b_s b_e) : tripleCond a_s a_e b_s b_e := by
  unfold overlaps at h
  unfold tripleCond
  omega

/-- Unfolding of an empty conflict query result. -/
theorem hasConflict_eq_false_iff {appts : List Appointment} {sid s e : Int} :
    hasConflict appts sid s e = false ↔
      ∀ a ∈ appts, a.stylist_id = sid →
        (a.status = .PENDING ∨ a.status = .CONFIRMED) →
        ¬ tripleCond a.start_time a.end_time s e := by
  unfold hasConflict
  simp only [List.any_eq_false, decide_eq_true_eq]
  constructor
  · intro h a ha h1 h2 h3
    exact h a ha ⟨h1, h2, h3⟩
  · intro h a ha hc
    exact h a ha hc.1 hc.2.1 hc.2.2

/-- Every slot emitted by the fueled loop starts at or after the cursor,
spans exactly the service duration, ends inside the block, carries the
stylist's id and name, and was conflict-free against the snapshot. -/
theorem slot_loop_fuel_mem {appts : List Appointment} {st : Stylist}
    {dur we : Int} {fuel : Nat} {ss : Int} {l : List TimeSlot}
    (h : slot_loop_fuel fuel appts st dur we ss = some l) :
    ∀ s ∈ l, ss ≤ s.start_time ∧ s.end_time = s.start_time + dur ∧
      s.end_time ≤ we ∧ s.stylist_id = st.id ∧ s.stylist_name = st.full_name ∧
      hasConflict appts st.id s.start_time s.end_time = false := by
  induction fuel generalizing ss l with
  | zero => simp [slot_loop_fuel] at h
  | succ fuel ih =>
    rw [slot_loop_fuel] at h
    by_cases hg : ss + dur ≤ we
    · rw [if_pos hg] at h
      cases hrec : slot_loop_fuel fuel appts st dur we (ss + 30) with
      | none => rw [hrec] at h; simp at h
      | some rest =>
        rw [hrec] at h
        dsimp only [] at h
        by_cases hc : hasConflict appts st.id ss (ss + dur) = true
        · rw [if_pos hc] at h
          cases h
          intro s hs
          have hrest := ih hrec s hs
          exact ⟨by omega, hrest.2⟩
        · rw [if_neg hc] at h
          cases h
          intro s hs
          rcases List.mem_cons.mp hs with hs | hs
          · subst hs
            exact ⟨le_refl _, rfl, hg, rfl, rfl, by simpa using hc⟩
          · have hrest := ih hrec s hs
            exact ⟨by omega, hrest.2⟩
    · rw [if_neg hg] at h
      cases h
      intro s hs
      simp at hs

/-- With at least `iter_bound` fuel the loop always finishes, whatever the
sign of the duration or of the block width. -/
theorem slot_loop_fuel_isSome {appts : List Appointment} {st : Stylist}
    {dur we : Int} {fuel : Nat} {ss : Int}
    (h : iter_bound we dur ss ≤ fuel) :
    (slot_loop_fuel fuel appts st dur we ss).isSome = true := by
  induction fuel generalizing ss with
  | zero => unfold iter_bound at h; omega
  | succ fuel ih =>
    rw [slot_loop_fuel]
    by_cases hg : ss + dur ≤ we
    · rw [if_pos hg]
      have hrec : iter_bound we dur (ss + 30) ≤ fuel := by
        unfold iter_bound at h ⊢; omega
      cases hres : slot_loop_fuel fuel appts st dur we (ss + 30) with
      | none =>
        have := ih hrec
        rw [hres] at this
        simp at this
      | some rest =>
        dsimp only []
        split <;> simp
    · rw [if_neg hg]
      simp

/-- The fueled loop run at its bound agrees with `slot_loop`. -/
theorem slot_loop_fuel_eq {appts : List Appointment} {st : Stylist}
    {dur we ss : Int} :
    slot_loop_fuel (iter_bound we dur ss) appts st dur we ss =
      some (slot_loop appts st dur we ss) := by
  have h := @slot_loop_fuel_isSome appts st dur we (iter_bound we dur ss) ss (le_refl _)
  cases hres : slot_loop_fuel (iter_bound we dur ss) appts st dur we ss with
  | none => rw [hres] at h; simp at h
  | some l => unfold slot_loop; rw [hres]; rfl

/-- Membership facts transferred to `slot_loop`. -/
theorem slot_loop_mem {appts : List Appointment} {st : Stylist}
    {dur we ss : Int} {s : TimeSlot}
    (hs : s ∈ slot_loop appts st dur we ss) :
    ss ≤ s.start_time ∧ s.end_time = s.start_time + dur ∧
      s.end_time ≤ we ∧ s.stylist_id = st.id ∧ s.stylist_name = st.full_name ∧
      hasConflict appts st.id s.start_time s.end_time = false :=
  slot_loop_fuel_mem slot_loop_fuel_eq s hs

/-- The fueled loop emits slots in strictly increasing start order. -/
theorem slot_loop_fuel_sorted {appts : List Appointment} {st : Stylist}
    {dur we : Int} {fuel : Nat} {ss : Int} {l : List TimeSlot}
    (h : slot_loop_fuel fuel appts st dur we ss = some l) :
    l.Pairwise fun s t => s.start_time < t.start_time := by
  induction fuel generalizing ss l with
  | zero => simp [slot_loop_fuel] at h
  | succ fuel ih =>
    rw [slot_loop_fuel] at h
    by_cases hg : ss + dur ≤ we
    · rw [if_pos hg] at h
      cases hrec : slot_loop_fuel fuel appts st dur we (ss + 30) with
      | none => rw [hrec] at h; simp at h
      | some rest =>
        rw [hrec] at h
        dsimp only [] at h
        by_cases hc : hasConflict appts st.id ss (ss + dur) = true
        · rw [if_pos hc] at h
          cases h
          exact ih hrec
        · rw [if_neg hc] at h
          cases h
          refine List.Pairwise.cons ?_ (ih hrec)
          intro t ht
          have := slot_loop_fuel_mem hrec t ht
          dsimp only []
          omega
    · rw [if_neg hg] at h
      cases h
      exact List.Pairwise.nil

/-- Sortedness transferred to `slot_loop`. -/
theorem slot_loop_sorted {appts : List Appointment} {st : Stylist}
    {dur we ss : Int} :
    (slot_loop appts st dur we ss).Pairwise fun s t =>
      s.start_time < t.start_time :=
  slot_loop_fuel_sorted slot_loop_fuel_eq

/-- Every slot produced for one stylist comes from one of the stylist's
blocks for the day, inside which it lies, and was conflict-free. -/
theorem stylist_slots_mem {appts : List Appointment} {service : Service}
    {date : Int} {day : Weekday} {st : Stylist} {s : TimeSlot}
    (hs : s ∈ stylist_slots appts service date day st) :
    ∃ b ∈ blocks_of_day st day,
      workStart date b ≤ s.start_time ∧
      s.end_time = s.start_time + service.duration_minutes ∧
      s.end_time ≤ workEnd date b ∧ s.stylist_id = st.id ∧
      s.stylist_name = st.full_name ∧
      hasConflict appts st.id s.start_time s.end_time = false := by
  unfold stylist_slots at hs
  cases hwh : st.working_hours with
  | none => rw [hwh] at hs; simp at hs
  | some wh =>
    rw [hwh] at hs
    dsimp only [] at hs
    by_cases hne : wh = []
    · rw [if_pos hne] at hs; simp at hs
    · rw [if_neg hne] at hs
      cases hlk : List.lookup day wh with
      | none => rw [hlk] at hs; simp at hs
      | some blocks =>
        rw [hlk] at hs
        dsimp only [] at hs
        obtain ⟨b, hb, hsb⟩ := List.mem_flatMap.mp hs
        have hmem := slot_loop_mem (s := s) hsb
        refine ⟨b, ?_, hmem.1, hmem.2.1, hmem.2.2.1, hmem.2.2.2⟩
        unfold blocks_of_day
        rw [hwh]
        show b ∈ (List.lookup day wh).getD []
        rw [hlk]
        exact hb

/-- A map with a constant value is a `replicate`. -/
theorem map_eq_replicate_of_forall {α β : Type} {l : List α} {f : α → β}
    {c : β} (h : ∀ x ∈ l, f x = c) :
    l.map f = List.replicate l.length c := by
  induction l with
  | nil => rfl
  | cons a l ih =>
    simp only [List.map_cons, List.length_cons, List.replicate_succ]
    rw [h a (by simp), ih fun x hx => h x (by simp [hx])]

/-- Pairwise property of a flatMap, from pairwise inside each group and
pairwise across groups. -/
theorem pairwise_flatMap_of {α β : Type} {l : List α} {f : α → List β}
    {R : β → β → Prop}
    (h1 : ∀ a ∈ l, (f a).Pairwise R)
    (h2 : l.Pairwise fun a b => ∀ x ∈ f a, ∀ y ∈ f b, R x y) :
    (l.flatMap f).Pairwise R := by
  induction l with
  | nil => simp
  | cons a l ih =>
    rw [List.flatMap_cons]
    apply List.pairwise_append.mpr
    obtain ⟨hhd, htl⟩ := List.pairwise_cons.mp h2
    refine ⟨h1 a (by simp), ih (fun b hb => h1 b (by simp [hb])) htl, ?_⟩
    intro x hx y hy
    obtain ⟨b, hb, hyb⟩ := List.mem_flatMap.mp hy
    exact hhd b hb x hx y hyb

/-- Characterization of a successful create: both lookups succeeded, the
stylist offers the service, the conflict query found nothing for the exact
requested interval, and the inserted row is the constructed one. -/
theorem create_appointment_ok {db : DB} {uid : Int} {data : AppointmentCreate}
    {appt : Appointment} (h : create_appointment db uid data = .ok appt) :
    ∃ service stylist,
      find_service db data.service_id = some service ∧
      find_stylist db data.stylist_id = some stylist ∧
      service.id ∈ stylist.services ∧
      hasConflict db.appointments stylist.id data.start_time
        (data.start_time + service.duration_minutes) = false ∧
      appt = mk_new_appointment uid data service stylist := by
  unfold create_appointment at h
  cases hfs : find_service db data.service_id with
  | none => rw [hfs] at h; simp at h
  | some service =>
    rw [hfs] at h
    dsimp only [] at h
    cases hfst : find_stylist db data.stylist_id with
    | none => rw [hfst] at h; simp at h
    | some stylist =>
      rw [hfst] at h
      dsimp only [] at h
      by_cases hoff : service.id ∈ stylist.services
      · rw [if_pos hoff] at h
        by_cases hc : hasConflict db.appointments stylist.id data.start_time
            (data.start_time + service.duration_minutes) = true
        · rw [if_pos hc] at h; simp at h
        · rw [if_neg hc] at h
          cases hwc : working_hours_check data
              (data.start_time + service.duration_minutes) stylist with
          | error e => rw [hwc] at h; simp at h
          | ok u =>
            cases u
            rw [hwc] at h
            dsimp only [] at h
            injection h with h'
            exact ⟨service, stylist, rfl, rfl, hoff, by simpa using hc, h'.symm⟩
      · rw [if_neg hoff] at h; simp at h

/-- Characterization of a successful status update: whatever the current
status, the requested one is stored, and the cancellation reason is stored
only for a cancellation carrying a truthy reason. -/
theorem update_appointment_status_ok {role : UserRole} {uid : Int}
    {owns : Bool} {appt : Appointment} {sd : AppointmentStatusUpdate}
    {a' : Appointment}
    (h : update_appointment_status role uid owns appt sd = .ok a') :
    a' = { appt with
           status := sd.status
           cancellation_reason :=
             if sd.status = .CANCELLED ∧ sd.cancellation_reason ≠ none ∧
                 sd.cancellation_reason ≠ some ("") then
               sd.cancellation_reason
             else appt.cancellation_reason } := by
  cases role <;>
    simp only [update_appointment_status,
      update_appointment_status.apply_status_update] at h <;>
    (try split_ifs at h) <;>
    first
      | (simp at h; done)
      | (injection h with h'; subst h'; split_ifs <;> simp_all)

/-- Claim C3: for well-formed half-open intervals (start < end on both
sides), the three-condition disjunction used by the conflict queries of
`create_appointment` and `check_availability` is logically equivalent to
the single half-open overlap test `a.start < b.end AND b.start < a.end`. -/
theorem tripleCond_iff_overlaps (a_s a_e b_s b_e : Int)
    (ha : a_s < a_e) (hb : b_s < b_e) :
    tripleCond a_s a_e b_s b_e ↔ overlaps a_s a_e b_s b_e := by
  unfold tripleCond overlaps
  omega

/-- Witness for C3 at the concrete intervals [0, 10) and [5, 15). -/
theorem tripleCond_iff_overlaps_witness :
    ((0 : Int) < 10 ∧ (5 : Int) < 15) ∧
      (tripleCond 0 10 5 15 ↔ overlaps 0 10 5 15) :=
  ⟨⟨by decide, by decide⟩,
   tripleCond_iff_overlaps 0 10 5 15 (by decide) (by decide)⟩

/-- Claim C10: the candidate-slot loop of `check_availability` terminates
on every input — for any duration (zero and negative included) and any
block bounds (end not exceeding start included), because the cursor
advances by a fixed 30 minutes each iteration: run with the explicit
`iter_bound` fuel, the loop never exhausts it and computes `slot_loop`. -/
theorem slot_loop_fuel_reaches_bound (appts : List Appointment)
    (stylist : Stylist) (dur work_end slot_start : Int) :
    slot_loop_fuel (iter_bound work_end dur slot_start) appts stylist
      dur work_end slot_start =
      some (slot_loop appts stylist dur work_end slot_start) :=
  slot_loop_fuel_eq

/-- Claim C1 (violation trace): two concurrent `create_appointment`
requests for stylist 1 with the same interval [6360, 6420), interleaved as
check-check-commit-commit, both return 201 and leave two fully overlapping
PENDING appointments for the one stylist — the code's conflict read and
insert are separate steps with no lock or serializable isolation, so the
spec's exactly-one-succeeds guarantee fails. -/
theorem create_race_double_books :
    raceFinal.db.appointments.map
        (fun a => (a.stylist_id, a.start_time, a.end_time, a.status)) =
      [(1, 6360, 6420, .PENDING), (1, 6360, 6420, .PENDING)] ∧
    raceFinal.ops.map (fun o => op_succeeded o.2.2) = [true, true] ∧
    overlaps 6360 6420 6360 6420 := by
  refine ⟨by decide, by decide, by decide⟩

/-- Claim C2 (counterexample): the transition COMPLETED → CANCELLED,
illegal under the spec's state machine, is applied by
`update_appointment_status` instead of failing with InvalidTransition:
the request succeeds and the stored status changes. -/
theorem completed_to_cancelled_applies :
    apptC2.status = .COMPLETED ∧
    update_appointment_status .ADMIN 999 true apptC2
        { status := .CANCELLED, cancellation_reason := some ("changed my mind") } =
      .ok { apptC2 with
            status := .CANCELLED
            cancellation_reason := some ("changed my mind") } :=
  ⟨rfl, rfl⟩

/-- Claim C2 (amended): `update_appointment_status` performs no
state-machine legality check at all — whenever the role-based
authorization passes, the requested status is stored unconditionally,
whatever the current status (terminal states included); no
InvalidTransition failure exists in the code. -/
theorem update_status_applies_unconditionally (role : UserRole) (uid : Int)
    (owns : Bool) (appt : Appointment) (sd : AppointmentStatusUpdate)
    (a' : Appointment)
    (h : update_appointment_status role uid owns appt sd = .ok a') :
    a'.status = sd.status ∧
    a' = { appt with
           status := sd.status
           cancellation_reason :=
             if sd.status = .CANCELLED ∧ sd.cancellation_reason ≠ none ∧
                 sd.cancellation_reason ≠ some ("") then
               sd.cancellation_reason
             else appt.cancellation_reason } := by
  have := update_appointment_status_ok h
  subst this
  exact ⟨rfl, rfl⟩

/-- Witness for C2: an ADMIN moves a COMPLETED appointment back to
PENDING — a transition out of a terminal state — and the theorem applies. -/
theorem update_status_applies_unconditionally_witness :
    update_appointment_status .ADMIN 5 true apptC2
        { status := .PENDING, cancellation_reason := none } =
      .ok { apptC2 with status := .PENDING } ∧
    ({ apptC2 with status := AppointmentStatus.PENDING } : Appointment).status =
      .PENDING :=
  ⟨rfl,
   (update_status_applies_unconditionally .ADMIN 5 true apptC2
      { status := .PENDING, cancellation_reason := none }
      { apptC2 with status := .PENDING } rfl).1⟩

/-- Claim C7 (counterexample): a cancellation request that simply omits
the cancellation_reason field passes pydantic validation (the validator
has no always=True, so it is skipped for missing fields) and the update
then succeeds: the appointment is CANCELLED with no reason stored, where
the claim requires the request to fail and the status to stay unchanged. -/
theorem cancel_without_reason_succeeds :
    validate_status_update .CANCELLED none =
      .ok { status := .CANCELLED, cancellation_reason := none } ∧
    update_appointment_status .CLIENT 100 false apptC7
        { status := .CANCELLED, cancellation_reason := none } =
      .ok { apptC7 with status := .CANCELLED } ∧
    apptC7.status = .PENDING ∧ apptC7.cancellation_reason = none :=
  ⟨rfl, rfl, rfl, rfl⟩

/-- Claim C7 (amended): the reason requirement is only enforced when the
cancellation_reason field is explicitly supplied — an explicit null or
empty string with status CANCELLED is rejected by the schema validator,
while an omitted field skips validation entirely; and every successful
transition to a status other than CANCELLED leaves the stored
cancellation reason untouched. -/
theorem cancellation_reason_validation (v : Option String)
    (role : UserRole) (uid : Int) (owns : Bool) (appt : Appointment)
    (sd : AppointmentStatusUpdate) (a' : Appointment)
    (hv : v = none ∨ v = some (""))
    (hne : sd.status ≠ .CANCELLED)
    (h : update_appointment_status role uid owns appt sd = .ok a') :
    validate_status_update .CANCELLED (some v) =
      .error ("Cancellation reason is required when cancelling an appointment") ∧
    a'.cancellation_reason = appt.cancellation_reason := by
  constructor
  · unfold validate_status_update
    dsimp only []
    rw [if_pos ⟨rfl, hv⟩]
  · have := update_appointment_status_ok h
    subst this
    simp [hne]

/-- Witness for C7: explicit null reason on a CANCELLED update is
rejected, and a PENDING → CONFIRMED update by the assigned stylist keeps
the stored reason. -/
theorem cancellation_reason_validation_witness :
    (update_appointment_status .STYLIST 3 true apptC7b
        { status := .CONFIRMED, cancellation_reason := none } =
      .ok { apptC7b with status := .CONFIRMED }) ∧
    (validate_status_update .CANCELLED (some none) =
        .error ("Cancellation reason is required when cancelling an appointment") ∧
      ({ apptC7b with status := AppointmentStatus.CONFIRMED } :
          Appointment).cancellation_reason = apptC7b.cancellation_reason) :=
  ⟨rfl,
   cancellation_reason_validation none .STYLIST 3 true apptC7b
     { status := .CONFIRMED, cancellation_reason := none }
     { apptC7b with status := .CONFIRMED }
     (Or.inl rfl) (by decide) rfl⟩

/-- Claim C4 (counterexample): a stylist with no working hours recorded at
all (NULL column) — which the claim says must be rejected with
OutsideWorkingHours — is accepted: the falsy-dict guard skips the whole
working-hours check and the appointment is created. -/
theorem no_working_hours_accepted :
    styC4.working_hours = none ∧
    create_appointment dbC4 11 dataC4 =
      .ok (mk_new_appointment 11 dataC4 svcC4 styC4) ∧
    (create_run dbC4 11 dataC4).1.appointments =
      [mk_new_appointment 11 dataC4 svcC4 styC4] :=
  ⟨rfl, rfl, rfl⟩

/-- Claim C4 (amended): when the stylist's working_hours mapping is
present and non-empty, the stylist offers the service, and the conflict
query found nothing, a candidate interval contained in no block of its
weekday is rejected with the outside-working-hours error (or the
does-not-work-that-day error when the weekday is absent) and no
appointment is created; when working_hours is NULL or empty the check is
skipped entirely. -/
theorem outside_working_hours_rejected (db : DB) (uid : Int)
    (data : AppointmentCreate) (service : Service) (stylist : Stylist)
    (wh : List (Weekday × List WorkBlock))
    (hs : find_service db data.service_id = some service)
    (hst : find_stylist db data.stylist_id = some stylist)
    (hoffer : service.id ∈ stylist.services)
    (hnc : hasConflict db.appointments stylist.id data.start_time
      (data.start_time + service.duration_minutes) = false)
    (hwh : stylist.working_hours = some wh) (hne : wh ≠ [])
    (hout : Option.all
      (fun blocks => ! is_within_hours data.start_time
        (data.start_time + service.duration_minutes) blocks)
      (List.lookup (weekdayOf data.start_time) wh) = true) :
    (create_appointment db uid data =
        .error (.badRequest ("Appointment time is outside of stylist's working hours")) ∨
      create_appointment db uid data =
        .error (.badRequest ("Stylist does not work on " ++
          dayName (weekdayOf data.start_time)))) ∧
    (create_run db uid data).1 = db := by
  have hcreate : create_appointment db uid data =
      .error (.badRequest ("Appointment time is outside of stylist's working hours")) ∨
      create_appointment db uid data =
        .error (.badRequest ("Stylist does not work on " ++
          dayName (weekdayOf data.start_time))) := by
    unfold create_appointment
    rw [hs]
    dsimp only []
    rw [hst]
    dsimp only []
    rw [if_pos hoffer, if_neg (by rw [hnc]; exact Bool.false_ne_true)]
    unfold working_hours_check
    rw [hwh]
    dsimp only []
    rw [if_neg hne]
    cases hlk : List.lookup (weekdayOf data.start_time) wh with
    | none => right; rfl
    | some blocks =>
      left
      rw [hlk] at hout
      simp only [Option.all] at hout
      dsimp only []
      rw [if_neg (by simp at hout; simp [hout])]
  refine ⟨hcreate, ?_⟩
  unfold create_run
  rcases hcreate with hc | hc <;> rw [hc]

/-- Witness for C4: the stylist works Monday 09:00-13:00 and the request
is Monday 14:00-15:00 — rejected with the outside-working-hours error and
the store is unchanged. -/
theorem outside_working_hours_rejected_witness :
    (find_service dbC4b 1 = some svcC4 ∧
      find_stylist dbC4b 1 = some styC4b ∧
      styC4b.working_hours = some [(.monday, [⟨9, 0, 13, 0⟩])]) ∧
    ((create_appointment dbC4b 11 dataC4b =
        .error (.badRequest ("Appointment time is outside of stylist's working hours")) ∨
      create_appointment dbC4b 11 dataC4b =
        .error (.badRequest ("Stylist does not work on " ++
          dayName (weekdayOf dataC4b.start_time)))) ∧
      (create_run dbC4b 11 dataC4b).1 = dbC4b) :=
  ⟨⟨rfl, rfl, rfl⟩,
   outside_working_hours_rejected dbC4b 11 dataC4b svcC4 styC4b
     [(.monday, [⟨9, 0, 13, 0⟩])] rfl rfl (by decide) (by decide) rfl
     (by decide) (by decide)⟩

/-- Claim C6: every appointment returned by a successful create satisfies
the pricing and initial-state rules: additional fees are the home-service
fee exactly for at-home bookings (0 when the fee is unset, and the code's
falsy-0 shortcut coincides with the fee itself when the fee is 0), the
price is the service price plus the fees, the original price is the
service price, the discount is 0, the status is PENDING, it is unpaid,
and the end time is the start time plus the service duration. -/
theorem create_pricing_correct (db : DB) (uid : Int)
    (data : AppointmentCreate) (service : Service) (appt : Appointment)
    (hs : find_service db data.service_id = some service)
    (h : create_appointment db uid data = .ok appt) :
    appt.additional_fees =
      (if data.appointment_type = .AT_HOME then service.home_service_fee.getD 0
       else 0) ∧
    appt.price = service.price + appt.additional_fees ∧
    appt.original_price = service.price ∧
    appt.discount_amount = 0 ∧
    appt.status = .PENDING ∧
    appt.is_paid = false ∧
    appt.end_time = appt.start_time + service.duration_minutes := by
  obtain ⟨service', stylist, hs', hst, hoff, hcf, happt⟩ := create_appointment_ok h
  rw [hs] at hs'
  injection hs' with hseq
  subst hseq
  subst happt
  unfold mk_new_appointment
  dsimp only []
  refine ⟨?_, rfl, rfl, rfl, rfl, rfl, rfl⟩
  cases hfee : service.home_service_fee with
  | none => simp
  | some f =>
    by_cases hat : data.appointment_type = .AT_HOME
    · by_cases hf : f = 0
      · simp [hat, hf]
      · simp [hat, hf]
    · simp [hat]

/-- Witness for C6, spec Scenario C: at-home booking of a 50-priced
service with a 15 home fee yields price 65, fees 15, original 50. -/
theorem create_pricing_correct_witness :
    (find_service dbC6 1 = some svcC6 ∧
      create_appointment dbC6 9 dataC6 = .ok apptC6 ∧
      apptC6.price = 65 ∧ apptC6.additional_fees = 15 ∧
      apptC6.original_price = 50) ∧
    (apptC6.additional_fees =
        (if dataC6.appointment_type = .AT_HOME then
          svcC6.home_service_fee.getD 0 else 0) ∧
      apptC6.price = svcC6.price + apptC6.additional_fees ∧
      apptC6.original_price = svcC6.price ∧
      apptC6.discount_amount = 0 ∧
      apptC6.status = .PENDING ∧
      apptC6.is_paid = false ∧
      apptC6.end_time = apptC6.start_time + svcC6.duration_minutes) :=
  ⟨⟨rfl, rfl, by norm_num [apptC6, mk_new_appointment, svcC6, dataC6],
    by norm_num [apptC6, mk_new_appointment, svcC6, dataC6],
    by norm_num [apptC6, mk_new_appointment, svcC6]⟩,
   create_pricing_correct dbC6 9 dataC6 svcC6 apptC6 rfl rfl⟩

/-- Claim C9 (counterexample): create performs no duration validation —
with a service whose duration is 0 the appointment is created (no
InvalidRequest) with start_time = end_time, violating the TimeRange
invariant start < end. -/
theorem zero_duration_creates_degenerate_appointment :
    svcC9.duration_minutes = 0 ∧
    create_appointment dbC9 7 dataC9 = .ok apptC9 ∧
    apptC9.start_time = apptC9.end_time ∧
    ¬ apptC9.start_time < apptC9.end_time :=
  ⟨rfl, rfl, rfl, by decide⟩

/-- Claim C9 (amended): create computes end = start + duration with no
validation, so the appointments it persists satisfy the TimeRange
invariant start < end exactly when the resolved service's duration is
positive; a non-positive duration still creates a row (violating the
invariant) instead of failing with InvalidRequest. -/
theorem create_timerange_iff_duration_pos (db : DB) (uid : Int)
    (data : AppointmentCreate) (service : Service) (appt : Appointment)
    (hs : find_service db data.service_id = some service)
    (h : create_appointment db uid data = .ok appt) :
    appt.end_time = appt.start_time + service.duration_minutes ∧
    (appt.start_time < appt.end_time ↔ 0 < service.duration_minutes) := by
  obtain ⟨service', stylist, hs', hst, hoff, hcf, happt⟩ := create_appointment_ok h
  rw [hs] at hs'
  injection hs' with hseq
  subst hseq
  subst happt
  unfold mk_new_appointment
  dsimp only []
  exact ⟨rfl, by omega⟩

/-- Witness for C9 at a 60-minute service: the created row satisfies
start < end. -/
theorem create_timerange_iff_duration_pos_witness :
    (find_service dbC9b 1 = some svcC9b ∧
      create_appointment dbC9b 7 dataC9b = .ok apptC9b) ∧
    (apptC9b.end_time = apptC9b.start_time + svcC9b.duration_minutes ∧
      (apptC9b.start_time < apptC9b.end_time ↔ 0 < svcC9b.duration_minutes)) :=
  ⟨⟨rfl, rfl⟩,
   create_timerange_iff_duration_pos dbC9b 7 dataC9b svcC9b apptC9b rfl rfl⟩

/-- Claim C5: every slot returned by `check_availability` is fully
contained in some working block of its stylist on the requested weekday,
and overlaps (half-open) no PENDING/CONFIRMED appointment of that stylist
in the snapshot the generator read. -/
theorem availability_slots_valid (db : DB) (service_id date : Int)
    (stylist_id : Option Int) (slots : List TimeSlot)
    (h : check_availability db service_id date stylist_id = .ok slots) :
    ∀ s ∈ slots,
      (∃ st ∈ db.stylists, st.id = s.stylist_id ∧
        ∃ b ∈ blocks_of_day st (weekdayOf date),
          contains (workStart date b) (workEnd date b) s.start_time s.end_time) ∧
      ∀ a ∈ db.appointments, a.stylist_id = s.stylist_id →
        (a.status = .PENDING ∨ a.status = .CONFIRMED) →
        ¬ overlaps a.start_time a.end_time s.start_time s.end_time := by
  unfold check_availability at h
  cases hfs : find_service db service_id with
  | none => rw [hfs] at h; simp at h
  | some service =>
    rw [hfs] at h
    dsimp only [] at h
    by_cases hemp : eligible_stylists db service_id stylist_id = []
    · rw [if_pos hemp] at h
      injection h with h'
      subst h'
      intro s hs
      simp at hs
    · rw [if_neg hemp] at h
      injection h with h'
      subst h'
      intro s hs
      obtain ⟨st, hstmem, hsl⟩ := List.mem_flatMap.mp hs
      obtain ⟨b, hb, hws, hend, hwe, hid, hname, hcf⟩ := stylist_slots_mem hsl
      constructor
      · refine ⟨st, ?_, hid.symm, b, hb, hws, hwe⟩
        unfold eligible_stylists at hstmem
        exact List.mem_of_mem_filter hstmem
      · intro a ha haid hastat hov
        have htc : tripleCond a.start_time a.end_time s.start_time s.end_time :=
          overlaps_imp_tripleCond hov
        exact hasConflict_eq_false_iff.mp hcf a ha (by rw [haid, hid]) hastat htc

/-- Witness for C5: one stylist working Monday 09:00-11:30 with an
existing PENDING booking 09:30-10:30 and a 60-minute service yields the
single slot 10:30-11:30, for which the theorem's guarantees hold. -/
theorem availability_slots_valid_witness :
    (check_availability dbC5 1 5760 none =
      .ok [{ start_time := 6390, end_time := 6450, stylist_id := 1,
             stylist_name := "Ana Lee" }]) ∧
    (∀ s ∈ ([{ start_time := 6390, end_time := 6450, stylist_id := 1,
               stylist_name := "Ana Lee" }] : List TimeSlot),
      (∃ st ∈ dbC5.stylists, st.id = s.stylist_id ∧
        ∃ b ∈ blocks_of_day st (weekdayOf 5760),
          contains (workStart 5760 b) (workEnd 5760 b)
            s.start_time s.end_time) ∧
      ∀ a ∈ dbC5.appointments, a.stylist_id = s.stylist_id →
        (a.status = .PENDING ∨ a.status = .CONFIRMED) →
        ¬ overlaps a.start_time a.end_time s.start_time s.end_time) :=
  ⟨rfl,
   availability_slots_valid dbC5 1 5760 none
     [{ start_time := 6390, end_time := 6450, stylist_id := 1,
        stylist_name := "Ana Lee" }] rfl⟩

/-- Claim C8 (counterexample): with a single stylist whose Monday blocks
are stored as [14:00-18:00, 09:00-13:00] (unsorted), the generated slots
for that stylist's group are not in ascending start order: the afternoon
block's slots come first because blocks are traversed in stored order. -/
theorem unsorted_blocks_give_unsorted_slots :
    check_availability dbC8 1 5760 none = .ok avail8 ∧
    (∀ s ∈ avail8, s.stylist_id = styC8.id) ∧
    ¬ avail8.Pairwise (fun s t => s.start_time ≤ t.start_time) :=
  ⟨rfl, by decide, by decide⟩

/-- Claim C8 (amended): the output of `check_availability` is grouped by
stylist in the order the stylists were supplied (the stylist-id column of
the output is the concatenation of one constant run per eligible stylist
in query order); within one stylist the slots ascend inside each work
block, and the whole per-stylist group ascends provided the stylist's
blocks for the day are stored in ascending disjoint order and the
service duration is positive — for unsorted stored blocks the group
follows the stored block order instead. -/
theorem availability_output_ordering (db : DB) (service_id date : Int)
    (stylist_id : Option Int) (service : Service) (slots : List TimeSlot)
    (hs : find_service db service_id = some service)
    (h : check_availability db service_id date stylist_id = .ok slots) :
    slots.map (fun s => s.stylist_id) =
      (eligible_stylists db service_id stylist_id).flatMap
        (fun st => List.replicate
          (stylist_slots db.appointments service date (weekdayOf date) st).length
          st.id) ∧
    ∀ st : Stylist, 0 < service.duration_minutes →
      (blocks_of_day st (weekdayOf date)).Pairwise
        (fun b b' => workEnd date b ≤ workStart date b') →
      (stylist_slots db.appointments service date (weekdayOf date) st).Pairwise
        (fun s t => s.start_time < t.start_time) := by
  constructor
  · unfold check_availability at h
    rw [hs] at h
    dsimp only [] at h
    by_cases hemp : eligible_stylists db service_id stylist_id = []
    · rw [if_pos hemp] at h
      injection h with h'
      subst h'
      rw [hemp]
      rfl
    · rw [if_neg hemp] at h
      injection h with h'
      subst h'
      rw [List.map_flatMap]
      apply List.flatMap_congr
      intro st hst
      apply map_eq_replicate_of_forall
      intro x hx
      obtain ⟨b, hb, hws, hend, hwe, hid, hname, hcf⟩ := stylist_slots_mem hx
      exact hid
  · intro st hdur hblocks
    unfold stylist_slots
    cases hwh : st.working_hours with
    | none => simp
    | some wh =>
      dsimp only []
      by_cases hne : wh = []
      · rw [if_pos hne]; simp
      · rw [if_neg hne]
        cases hlk : List.lookup (weekdayOf date) wh with
        | none => simp
        | some blocks =>
          dsimp only []
          have hbl : blocks_of_day st (weekdayOf date) = blocks := by
            unfold blocks_of_day
            rw [hwh]
            show (List.lookup (weekdayOf date) wh).getD [] = blocks
            rw [hlk]
            rfl
          rw [hbl] at hblocks
          apply pairwise_flatMap_of
          · intro b hb
            exact slot_loop_sorted
          · refine hblocks.imp ?_
            intro b b' hbb' x hx y hy
            unfold block_slots at hx hy
            obtain ⟨hxs, hxe, hxw, -, -, -⟩ := slot_loop_mem hx
            obtain ⟨hys, hye, hyw, -, -, -⟩ := slot_loop_mem hy
            omega

/-- Witness for C8: one eligible stylist with the single sorted Monday
block 09:00-10:30 and a 60-minute service: the group column is two runs
of id 2 and the group's slots ascend. -/
theorem availability_output_ordering_witness :
    (check_availability dbC8b 1 5760 none = .ok
      [{ start_time := 6300, end_time := 6360, stylist_id := 2,
         stylist_name := "Mia Chen" },
       { start_time := 6330, end_time := 6390, stylist_id := 2,
         stylist_name := "Mia Chen" }]) ∧
    (([{ start_time := 6300, end_time := 6360, stylist_id := 2,
         stylist_name := "Mia Chen" },
       { start_time := 6330, end_time := 6390, stylist_id := 2,
         stylist_name := "Mia Chen" }] : List TimeSlot).map
        (fun s => s.stylist_id) =
      (eligible_stylists dbC8b 1 none).flatMap
        (fun st => List.replicate
          (stylist_slots dbC8b.appointments svcC8b 5760 (weekdayOf 5760) st).length
          st.id)) ∧
    (stylist_slots dbC8b.appointments svcC8b 5760 (weekdayOf 5760)
        styC8b).Pairwise (fun s t => s.start_time < t.start_time) :=
  ⟨rfl,
   (availability_output_ordering dbC8b 1 5760 none svcC8b
     [{ start_time := 6300, end_time := 6360, stylist_id := 2,
        stylist_name := "Mia Chen" },
      { start_time := 6330, end_time := 6390, stylist_id := 2,
        stylist_name := "Mia Chen" }] rfl rfl).1,
   (availability_output_ordering dbC8b 1 5760 none svcC8b
     [{ start_time := 6300, end_time := 6360, stylist_id := 2,
        stylist_name := "Mia Chen" },
      { start_time := 6330, end_time := 6390, stylist_id := 2,
        stylist_name := "Mia Chen" }] rfl rfl).2 styC8b (by decide) (by decide)⟩
